import Mathlib

set_option maxRecDepth 8000

/-
  Verification development for the vehicle motion and status simulator
  (src/utils/gpsSimulation.ts of the pols-tracker repository).

  The embedding works over the rationals.  The simulator in the source
  calls three pieces of real analysis that a rational shallow embedding
  cannot compute exactly:
    * Math.atan2 scaled to degrees (the bearing computation),
    * calculateNewPosition from src/utils/statusCalculations.ts
      (a file the repository snapshot does not contain: the spec, step 4,
      describes it as an equirectangular, hence trigonometric, move),
    * calculateVehicleStatus from the same absent file (spec section 4.3).
  All three are taken as parameters of the update; every property proved
  below holds for an arbitrary choice of these functions, hence in
  particular for the real trigonometric ones.

  The source compares square roots of sums of squares against constant
  thresholds (100 m, 500 m) and against each other (closest waypoint).
  Square root is strictly monotone on nonnegative numbers, so every such
  comparison is performed here on the squared values against the squared
  thresholds; no other change is made.
-/

namespace PolsTracker

/-- A latitude/longitude pair, matching the Position shape of the source. -/
structure Pos where
  lat : ℚ
  lng : ℚ
deriving DecidableEq, Repr

/-- The derived vehicle status (spec section 4.3). -/
inductive VStatus where
  | onTime : VStatus
  | warning : VStatus
  | critical : VStatus
deriving DecidableEq, Repr

/-- One entry of statusHistory: a timestamp/status/speed/position snapshot. -/
structure HistoryEntry where
  timestamp : ℚ
  status : VStatus
  speed : ℚ
  position : Pos
deriving DecidableEq, Repr

/-- The Vehicle record, restricted to the fields the simulator reads or
writes.  An absent route (undefined in the source) is modelled as the
empty list: the source treats the two identically everywhere except in a
log line. -/
structure Vehicle where
  id : String
  driverName : String
  position : Pos
  destination : Pos
  route : List Pos
  currentSpeed : ℚ
  heading : ℚ
  status : VStatus
  statusHistory : List HistoryEntry
  lastStopTime : Option ℚ
  cargoTemperature : Option ℚ
deriving DecidableEq, Repr

/-- The independent uniform draws one call of simulateGPSUpdate consumes,
in source order: the speed jitter draw, the traffic-slowdown test, the
clear-road test, the highway-burst test, the burst magnitude, and the
cargo temperature drift.  Draws that only gate console logging are
omitted: they do not affect the state. -/
structure Rand where
  jitter : ℚ
  traffic : ℚ
  clear : ℚ
  burst : ℚ
  burstMag : ℚ
  temp : ℚ
deriving DecidableEq, Repr

/-- The structured content of the speed-violation console warning emitted
by the SPEED LIMIT CHECK block of simulateGPSUpdate. -/
structure SpeedViolation where
  vehicleId : String
  driverName : String
  observedSpeed : ℚ
  limit : ℚ
deriving DecidableEq, Repr

/-- Squared flat-earth distance in metres squared between two positions,
scaling both coordinate differences by 111000 metres per degree.  The
source takes the square root of this value; all its uses compare the
root against a constant or another root, so the squared value carries the
same information. -/
def distScaledSq (a b : Pos) : ℚ :=
  ((a.lat - b.lat) * 111000) * ((a.lat - b.lat) * 111000) +
    ((a.lng - b.lng) * 111000) * ((a.lng - b.lng) * 111000)

/-- findClosestRoutePoint of the source: index of the route waypoint with
the strictly smallest flat-earth distance to the given position, earlier
indices winning ties; 0 for an empty route.  The fold mirrors the
route.forEach loop, with none standing for the initial Infinity. -/
def findClosestRoutePoint (position : Pos) (route : List Pos) : ℕ :=
  if route = [] then 0
  else
    (route.enum.foldl
      (fun acc p =>
        let distance := distScaledSq p.2 position
        match acc.2 with
        | none => (p.1, some distance)
        | some m => if distance < m then (p.1, some distance) else acc)
      ((0 : ℕ), (none : Option ℚ))).1

/-- The target record returned by getNextRouteTarget of the source. -/
structure RouteTarget where
  lat : ℚ
  lng : ℚ
  index : ℤ
deriving DecidableEq, Repr

/-- getNextRouteTarget of the source.  The TypeScript signature allows
null but no code path returns it, so the embedding is total.  The source
reads vehicle.route and vehicle.destination; they are passed here as the
two first arguments. -/
def getNextRouteTarget (destination : Pos) (route : List Pos)
    (currentRouteIndex : ℕ) : RouteTarget :=
  if route = [] then ⟨destination.lat, destination.lng, -1⟩
  else
    let targetIndex := min (currentRouteIndex + 1) (route.length - 1)
    if route.length ≤ targetIndex then
      ⟨destination.lat, destination.lng, (route.length : ℤ)⟩
    else
      let p := route.getD targetIndex ⟨0, 0⟩
      ⟨p.lat, p.lng, (targetIndex : ℤ)⟩

/-- The speed perturbation block of simulateGPSUpdate: the plus or minus
five percent jitter, the five percent traffic slowdown, the three percent
clear-road speed-up, the two percent highway burst into 85 to 98, and the
final clamp of the speed into the interval from 5 to 98. -/
def speedAfterRandom (currentSpeed : ℚ) (r : Rand) : ℚ :=
  let speedVariation := (r.jitter - 1/2) * 2 * (5/100)
  let s1 := currentSpeed * (1 + speedVariation)
  let s2 := if r.traffic < 5/100 then max 10 (s1 * (1/2)) else s1
  let s3 := if r.clear < 3/100 then min 60 (s2 * (12/10)) else s2
  let s4 := if r.burst < 2/100 then 85 + r.burstMag * 13 else s3
  max 5 (min 98 s4)

/-- The hard speed limit constant of the source. -/
def SPEED_LIMIT : ℚ := 100

/-- The SPEED LIMIT CHECK block of simulateGPSUpdate: when the computed
speed exceeds SPEED_LIMIT, emit one violation record and cap the stored
speed at the limit; otherwise keep the speed and emit nothing. -/
def limitCheck (vehicleId driverName : String) (newSpeed : ℚ) :
    ℚ × List SpeedViolation :=
  if SPEED_LIMIT < newSpeed then
    (SPEED_LIMIT, [⟨vehicleId, driverName, newSpeed, SPEED_LIMIT⟩])
  else
    (newSpeed, [])

/-- distanceKm of simulateGPSUpdate: the source comment reads, distance
traveled in 2 seconds at current speed, and the code multiplies the
hourly speed by 2 of 3600. -/
def distanceKmOf (vehicle : Vehicle) : ℚ :=
  vehicle.currentSpeed / 3600 * 2

/-- The direction-of-travel block of simulateGPSUpdate, returning the raw
(unnormalized) heading and the new position.  atan2Deg stands for
Math.atan2 times 180 over pi, and calculateNewPosition for the function
of the same name from the absent statusCalculations.ts. -/
def routeMotion (atan2Deg : ℚ → ℚ → ℚ)
    (calculateNewPosition : Pos → ℚ → ℚ → Pos)
    (vehicle : Vehicle) (distanceKm : ℚ) : ℚ × Pos :=
  if 2 < vehicle.route.length then
    let currentRouteIndex := findClosestRoutePoint vehicle.position vehicle.route
    let target := getNextRouteTarget vehicle.destination vehicle.route currentRouteIndex
    if target.index < (vehicle.route.length : ℤ) then
      let latDiff := target.lat - vehicle.position.lat
      let lngDiff := target.lng - vehicle.position.lng
      let targetHeading := atan2Deg lngDiff latDiff
      (targetHeading, calculateNewPosition vehicle.position distanceKm targetHeading)
    else
      let latDiff := vehicle.destination.lat - vehicle.position.lat
      let lngDiff := vehicle.destination.lng - vehicle.position.lng
      let newHeading := atan2Deg lngDiff latDiff
      (newHeading, calculateNewPosition vehicle.position distanceKm newHeading)
  else
    let latDiff := vehicle.destination.lat - vehicle.position.lat
    let lngDiff := vehicle.destination.lng - vehicle.position.lng
    let newHeading := atan2Deg lngDiff latDiff
    (newHeading, calculateNewPosition vehicle.position distanceKm newHeading)

/-- Truncation toward zero on the rationals, the rounding used by the
JavaScript remainder operator on finite numbers. -/
def jsTrunc (q : ℚ) : ℚ :=
  if 0 ≤ q then ((⌊q⌋ : ℤ) : ℚ) else ((⌈q⌉ : ℤ) : ℚ)

/-- The JavaScript remainder a % b on finite numbers: the remainder of
truncating division, carrying the sign of the dividend. -/
def jsMod (a b : ℚ) : ℚ :=
  a - b * jsTrunc (a / b)

/-- The heading normalization of the source: ((h % 360) + 360) % 360. -/
def normalizeDeg (h : ℚ) : ℚ :=
  jsMod (jsMod h 360 + 360) 360

/-- Array.prototype.slice with a negative start, as used for the history
cap: keep the last n elements of the list. -/
def jsSliceLast (n : ℕ) (l : List HistoryEntry) : List HistoryEntry :=
  l.drop (l.length - n)

/-- simulateGPSUpdate of the source, over one vehicle, one bundle of
random draws, and the current timestamp now.  Returns the updated vehicle
together with the list of speed-violation records emitted during the
call.  The three function parameters are the transcendental collaborators
described at the head of the file. -/
def simulateGPSUpdate (atan2Deg : ℚ → ℚ → ℚ)
    (calculateNewPosition : Pos → ℚ → ℚ → Pos)
    (calculateVehicleStatus : Vehicle → VStatus)
    (vehicle : Vehicle) (r : Rand) (now : ℚ) : Vehicle × List SpeedViolation :=
  let distanceKm := distanceKmOf vehicle
  let sv := limitCheck vehicle.id vehicle.driverName
    (speedAfterRandom vehicle.currentSpeed r)
  let newSpeed0 := sv.1
  let violations := sv.2
  let hm := routeMotion atan2Deg calculateNewPosition vehicle distanceKm
  let newHeading := normalizeDeg hm.1
  let newPosition := hm.2
  let dSq := distScaledSq vehicle.destination newPosition
  let finalPosition := if dSq < 100 * 100 then vehicle.destination else newPosition
  let newSpeed1 := if dSq < 500 * 500 then min newSpeed0 20 else newSpeed0
  let newSpeed := if dSq < 100 * 100 then 0 else newSpeed1
  let newHistoryEntry : HistoryEntry :=
    ⟨now, vehicle.status, vehicle.currentSpeed, vehicle.position⟩
  let updatedHistory := jsSliceLast 450 (vehicle.statusHistory ++ [newHistoryEntry])
  let lastStopTime :=
    if newSpeed < 5 ∧ vehicle.lastStopTime = none then some now
    else if 5 ≤ newSpeed then none
    else vehicle.lastStopTime
  let updatedVehicle : Vehicle :=
    { vehicle with
        position := finalPosition
        currentSpeed := newSpeed
        heading := newHeading
        lastStopTime := lastStopTime
        statusHistory := updatedHistory
        route := vehicle.route }
  let withStatus := { updatedVehicle with status := calculateVehicleStatus updatedVehicle }
  let cargoTemperature :=
    withStatus.cargoTemperature.map
      (fun t => max 0 (min 10 (t + (r.temp - 1/2) * (1/2))))
  ({ withStatus with cargoTemperature := cargoTemperature }, violations)

/-!  Runtime-shape embedding for the missing-destination question.

The TypeScript Vehicle type (src/types.ts, absent from the snapshot)
declares destination as a mandatory field, but the spec discusses a
vehicle whose destination is absent.  At the JavaScript runtime such a
vehicle is representable, and the first property read on an undefined
destination raises a TypeError.  The embedding below repeats the update
over a vehicle shape whose destination is optional, with the error
monad raising exactly where the source first dereferences the
destination.  -/

/-- The errors a single-vehicle update can be discussed against.
typeError is the generic JavaScript TypeError raised by reading a
property of undefined.  missingDestination is modelled from the spec: it
is the structured ErrorKind named in the spec error-handling section; no
statement of the source constructs or mentions it. -/
inductive SimError where
  | typeError : SimError
  | missingDestination : SimError
deriving DecidableEq, Repr

/-- The Vehicle record with the destination field optional, the shape a
vehicle object can actually have at the JavaScript runtime. -/
structure VehicleND where
  id : String
  driverName : String
  position : Pos
  destination : Option Pos
  route : List Pos
  currentSpeed : ℚ
  heading : ℚ
  status : VStatus
  statusHistory : List HistoryEntry
  lastStopTime : Option ℚ
  cargoTemperature : Option ℚ
deriving DecidableEq, Repr

/-- Reading the destination: a present destination is returned, an
absent one raises the JavaScript TypeError at the point of the read. -/
def derefDest : Option Pos → Except SimError Pos
  | none => Except.error SimError.typeError
  | some d => Except.ok d

/-- getNextRouteTarget over the runtime shape: identical to
getNextRouteTarget except that the two destination reads go through
derefDest. -/
def getNextRouteTargetE (destination : Option Pos) (route : List Pos)
    (currentRouteIndex : ℕ) : Except SimError RouteTarget :=
  if route = [] then do
    let d ← derefDest destination
    pure ⟨d.lat, d.lng, -1⟩
  else
    let targetIndex := min (currentRouteIndex + 1) (route.length - 1)
    if route.length ≤ targetIndex then do
      let d ← derefDest destination
      pure ⟨d.lat, d.lng, (route.length : ℤ)⟩
    else
      let p := route.getD targetIndex ⟨0, 0⟩
      pure ⟨p.lat, p.lng, (targetIndex : ℤ)⟩

/-- The direction-of-travel block over the runtime shape, with the
destination reads of the source going through derefDest at the same
program points. -/
def routeMotionE (atan2Deg : ℚ → ℚ → ℚ)
    (calculateNewPosition : Pos → ℚ → ℚ → Pos)
    (vehicle : VehicleND) (distanceKm : ℚ) : Except SimError (ℚ × Pos) :=
  if 2 < vehicle.route.length then do
    let currentRouteIndex := findClosestRoutePoint vehicle.position vehicle.route
    let target ← getNextRouteTargetE vehicle.destination vehicle.route currentRouteIndex
    if target.index < (vehicle.route.length : ℤ) then
      let latDiff := target.lat - vehicle.position.lat
      let lngDiff := target.lng - vehicle.position.lng
      let targetHeading := atan2Deg lngDiff latDiff
      pure (targetHeading, calculateNewPosition vehicle.position distanceKm targetHeading)
    else do
      let d ← derefDest vehicle.destination
      let latDiff := d.lat - vehicle.position.lat
      let lngDiff := d.lng - vehicle.position.lng
      let newHeading := atan2Deg lngDiff latDiff
      pure (newHeading, calculateNewPosition vehicle.position distanceKm newHeading)
  else do
    let d ← derefDest vehicle.destination
    let latDiff := d.lat - vehicle.position.lat
    let lngDiff := d.lng - vehicle.position.lng
    let newHeading := atan2Deg lngDiff latDiff
    pure (newHeading, calculateNewPosition vehicle.position distanceKm newHeading)

/-- simulateGPSUpdate over the runtime shape: line for line the same
update, with every destination read going through derefDest where the
source reads vehicle.destination. -/
def simulateGPSUpdateE (atan2Deg : ℚ → ℚ → ℚ)
    (calculateNewPosition : Pos → ℚ → ℚ → Pos)
    (calculateVehicleStatus : VehicleND → VStatus)
    (vehicle : VehicleND) (r : Rand) (now : ℚ) :
    Except SimError (VehicleND × List SpeedViolation) := do
  let distanceKm := vehicle.currentSpeed / 3600 * 2
  let sv := limitCheck vehicle.id vehicle.driverName
    (speedAfterRandom vehicle.currentSpeed r)
  let hm ← routeMotionE atan2Deg calculateNewPosition vehicle distanceKm
  let newHeading := normalizeDeg hm.1
  let newPosition := hm.2
  let d ← derefDest vehicle.destination
  let dSq := distScaledSq d newPosition
  let finalPosition := if dSq < 100 * 100 then d else newPosition
  let newSpeed1 := if dSq < 500 * 500 then min sv.1 20 else sv.1
  let newSpeed := if dSq < 100 * 100 then 0 else newSpeed1
  let newHistoryEntry : HistoryEntry :=
    ⟨now, vehicle.status, vehicle.currentSpeed, vehicle.position⟩
  let updatedHistory := jsSliceLast 450 (vehicle.statusHistory ++ [newHistoryEntry])
  let lastStopTime :=
    if newSpeed < 5 ∧ vehicle.lastStopTime = none then some now
    else if 5 ≤ newSpeed then none
    else vehicle.lastStopTime
  let updatedVehicle : VehicleND :=
    { vehicle with
        position := finalPosition
        currentSpeed := newSpeed
        heading := newHeading
        lastStopTime := lastStopTime
        statusHistory := updatedHistory
        route := vehicle.route }
  let withStatus := { updatedVehicle with status := calculateVehicleStatus updatedVehicle }
  let cargoTemperature :=
    withStatus.cargoTemperature.map
      (fun t => max 0 (min 10 (t + (r.temp - 1/2) * (1/2))))
  pure ({ withStatus with cargoTemperature := cargoTemperature }, sv.2)

/-!  Concrete instances used by witnesses and counterexamples. -/

/-- A bearing function returning 0 everywhere; the claims hold for every
bearing function, so any concrete one serves a witness. -/
def atan2Zero : ℚ → ℚ → ℚ := fun _ _ => 0

/-- A bearing probe that distinguishes a zero coordinate difference from
a nonzero one, used to observe which target the motion block headed
for. -/
def atan2Probe : ℚ → ℚ → ℚ :=
  fun lngDiff latDiff => if lngDiff = 0 ∧ latDiff = 0 then 17 else 50

/-- A position-update function that never moves, used to place the newly
computed position at the old one. -/
def calcPosFreeze : Pos → ℚ → ℚ → Pos := fun p _ _ => p

/-- A position-update function that stores the distance argument it was
handed into the latitude, used to observe the distance the update
requested. -/
def calcPosRecord : Pos → ℚ → ℚ → Pos := fun _ d _ => ⟨d, 0⟩

/-- A constant status classifier. -/
def statusConst : Vehicle → VStatus := fun _ => VStatus.onTime

/-- A constant status classifier over the runtime shape. -/
def statusConstND : VehicleND → VStatus := fun _ => VStatus.onTime

/-- Random draws on which no probabilistic branch fires and the jitter
is zero. -/
def randCalm : Rand := ⟨1/2, 1, 1, 1, 0, 1⟩

/-- The spec scenario vehicle: position (12.97, 77.59), destination
(12.98, 77.60), no route, speed 40. -/
def vScenario : Vehicle :=
  { id := "v1"
    driverName := "Jesse Pinkman"
    position := ⟨1297/100, 7759/100⟩
    destination := ⟨1298/100, 7760/100⟩
    route := []
    currentSpeed := 40
    heading := 0
    status := VStatus.onTime
    statusHistory := []
    lastStopTime := none
    cargoTemperature := none }

/-- A vehicle sitting on the last waypoint of a three-waypoint route,
with a destination away from the route. -/
def vRoute : Vehicle :=
  { id := "v3"
    driverName := "Saul Goodman"
    position := ⟨2, 0⟩
    destination := ⟨5, 5⟩
    route := [⟨0, 0⟩, ⟨1, 0⟩, ⟨2, 0⟩]
    currentSpeed := 40
    heading := 0
    status := VStatus.onTime
    statusHistory := []
    lastStopTime := none
    cargoTemperature := none }

/-- A vehicle standing exactly on its destination. -/
def vAtDest : Vehicle :=
  { id := "v5"
    driverName := "Mike Ehrmantraut"
    position := ⟨0, 0⟩
    destination := ⟨0, 0⟩
    route := []
    currentSpeed := 40
    heading := 0
    status := VStatus.onTime
    statusHistory := []
    lastStopTime := none
    cargoTemperature := none }

/-- A runtime-shape vehicle with no destination. -/
def vNoDest : VehicleND :=
  { id := "v7"
    driverName := "Hank Schrader"
    position := ⟨1, 1⟩
    destination := none
    route := []
    currentSpeed := 40
    heading := 0
    status := VStatus.onTime
    statusHistory := []
    lastStopTime := none
    cargoTemperature := none }

/-!  Helper lemmas. -/

/-- The speed perturbation block never exceeds 98, whatever the draws. -/
theorem speedAfterRandom_le_98 (s : ℚ) (r : Rand) : speedAfterRandom s r ≤ 98 := by
  unfold speedAfterRandom
  exact max_le (by norm_num) (min_le_left _ _)

/-- The speed perturbation block never goes below 5, whatever the draws. -/
theorem le_speedAfterRandom (s : ℚ) (r : Rand) : 5 ≤ speedAfterRandom s r :=
  le_max_left _ _

/-- A speed within the limit passes the SPEED LIMIT CHECK unchanged and
emits nothing. -/
theorem limitCheck_eq_of_le (i d : String) {s : ℚ} (h : s ≤ 100) :
    limitCheck i d s = (s, []) := by
  unfold limitCheck SPEED_LIMIT
  rw [if_neg (not_lt.mpr h)]

/-- Bounds of the JavaScript remainder by 360: strictly between -360 and
360, and nonnegative on a nonnegative dividend. -/
theorem jsMod360_bounds (a : ℚ) :
    -360 < jsMod a 360 ∧ jsMod a 360 < 360 ∧ (0 ≤ a → 0 ≤ jsMod a 360) := by
  unfold jsMod jsTrunc
  have hmul : a / 360 * 360 = a := div_mul_cancel₀ a (by norm_num)
  by_cases h : 0 ≤ a / 360
  · rw [if_pos h]
    have h1 : ((⌊a / 360⌋ : ℤ) : ℚ) ≤ a / 360 := Int.floor_le _
    have h2 : a / 360 < ((⌊a / 360⌋ : ℤ) : ℚ) + 1 := Int.lt_floor_add_one _
    exact ⟨by linarith, by linarith, fun _ => by linarith⟩
  · rw [if_neg h]
    push_neg at h
    have h1 : a / 360 ≤ ((⌈a / 360⌉ : ℤ) : ℚ) := Int.le_ceil _
    have h2 : ((⌈a / 360⌉ : ℤ) : ℚ) < a / 360 + 1 := Int.ceil_lt_add_one _
    have ha : a < 0 := by linarith
    exact ⟨by linarith, by linarith, fun h0 => absurd ha (not_lt.mpr h0)⟩

/-- The heading normalization of the source always lands in [0, 360). -/
theorem normalizeDeg_bounds (h : ℚ) : 0 ≤ normalizeDeg h ∧ normalizeDeg h < 360 := by
  unfold normalizeDeg
  obtain ⟨l1, u1, -⟩ := jsMod360_bounds h
  obtain ⟨-, u2, nn2⟩ := jsMod360_bounds (jsMod h 360 + 360)
  exact ⟨nn2 (by linarith), u2⟩

/-!  Claim theorems. -/

/-- C1, counterexample: on the spec scenario vehicle (position
(12.97, 77.59), destination (12.98, 77.60), no route, speed 40 km/h),
the update asks the position-update function to move 1/45 km, visible
here through a recording position function; 1/45 km is about 0.0222 km
and is not 40 * (4/3600) = 0.0444 km, so one tick does not move the
vehicle currentSpeed * (4/3600) kilometres. -/
theorem claim1_counterexample :
    (simulateGPSUpdate atan2Zero calcPosRecord statusConst vScenario randCalm 0).1.position
        = ⟨1/45, 0⟩ ∧
    ((1 : ℚ)/45) ≠ 40 * (4/3600) := by
  constructor
  · norm_num [simulateGPSUpdate, distanceKmOf, limitCheck, SPEED_LIMIT, speedAfterRandom,
      routeMotion, findClosestRoutePoint, getNextRouteTarget, distScaledSq, normalizeDeg,
      jsMod, jsTrunc, jsSliceLast, vScenario, atan2Zero, calcPosRecord, statusConst, randCalm,
      Pos.mk.injEq]
  · norm_num

/-- C1, amended: the distance the update moves the vehicle each tick is
currentSpeed * (2/3600) kilometres: the source hard-codes a 2-second
elapsed time into distanceKm even though the simulation tick interval is
4 seconds, so a vehicle at 40 km/h moves 1/45 of a kilometre, about
0.0222 km, per tick. -/
theorem claim1_amended_distance (v : Vehicle) :
    distanceKmOf v = v.currentSpeed * (2/3600) := by
  unfold distanceKmOf
  ring

/-- C2, counterexample: the claim asserts some vehicle state and random
draws make the per-vehicle update emit a speed-violation record; in the
source no state and no draws do, because the clamp of the speed into
[5, 98] runs before the 100 km/h limit check, so the checked speed never
exceeds 100 and the emission list is always empty. -/
theorem claim2_counterexample :
    ¬ ∃ (g : ℚ → ℚ → ℚ) (a : Pos → ℚ → ℚ → Pos) (c : Vehicle → VStatus)
        (v : Vehicle) (r : Rand) (n : ℚ),
      (simulateGPSUpdate g a c v r n).2 ≠ [] := by
  rintro ⟨g, a, c, v, r, n, hne⟩
  apply hne
  show (limitCheck v.id v.driverName (speedAfterRandom v.currentSpeed r)).2 = []
  rw [limitCheck_eq_of_le _ _ ((speedAfterRandom_le_98 v.currentSpeed r).trans (by norm_num))]

/-- C2, amended: the speed reaching the limit check is already clamped
to at most 98 km/h, so the violation branch is unreachable: for every
vehicle state and every random draws the update emits no violation
record. -/
theorem claim2_amended_no_violation (g : ℚ → ℚ → ℚ) (a : Pos → ℚ → ℚ → Pos)
    (c : Vehicle → VStatus) (v : Vehicle) (r : Rand) (n : ℚ) :
    speedAfterRandom v.currentSpeed r ≤ 98 ∧ (simulateGPSUpdate g a c v r n).2 = [] := by
  refine ⟨speedAfterRandom_le_98 v.currentSpeed r, ?_⟩
  show (limitCheck v.id v.driverName (speedAfterRandom v.currentSpeed r)).2 = []
  rw [limitCheck_eq_of_le _ _ ((speedAfterRandom_le_98 v.currentSpeed r).trans (by norm_num))]

/-- C3, counterexample: the routed vehicle vRoute sits on the last
waypoint (2, 0) of its three-waypoint route, so the closest waypoint is
the last one; the target chosen for the next tick is that very waypoint
(2, 0) and not the destination (5, 5), and the motion block computes its
heading from the zero coordinate differences to that waypoint, visible
through the probing bearing function. -/
theorem claim3_counterexample :
    findClosestRoutePoint vRoute.position vRoute.route = vRoute.route.length - 1 ∧
    (getNextRouteTarget vRoute.destination vRoute.route
        (findClosestRoutePoint vRoute.position vRoute.route)).lat = 2 ∧
    (getNextRouteTarget vRoute.destination vRoute.route
        (findClosestRoutePoint vRoute.position vRoute.route)).lng = 0 ∧
    ((2 : ℚ), (0 : ℚ)) ≠ (vRoute.destination.lat, vRoute.destination.lng) ∧
    (routeMotion atan2Probe calcPosFreeze vRoute (distanceKmOf vRoute)).1 = 17 := by
  refine ⟨?_, ?_, ?_, ?_, ?_⟩ <;>
    norm_num [findClosestRoutePoint, getNextRouteTarget, routeMotion, distScaledSq,
      distanceKmOf, vRoute, atan2Probe, calcPosFreeze, List.enum, List.enumFrom,
      Prod.mk.injEq, List.cons_ne_nil, Nat.min_def]

/-- C3, amended: with a route of more than 2 waypoints the update
targets the route waypoint at index min(closest + 1, length - 1): the
waypoint immediately after the closest one, never further ahead; but
when the closest waypoint is the last one, the target is that last
waypoint itself, not the destination. -/
theorem claim3_amended_target (v : Vehicle) (hlen : 2 < v.route.length) :
    getNextRouteTarget v.destination v.route (findClosestRoutePoint v.position v.route)
      = ⟨(v.route.getD (min (findClosestRoutePoint v.position v.route + 1)
            (v.route.length - 1)) ⟨0, 0⟩).lat,
         (v.route.getD (min (findClosestRoutePoint v.position v.route + 1)
            (v.route.length - 1)) ⟨0, 0⟩).lng,
         ((min (findClosestRoutePoint v.position v.route + 1) (v.route.length - 1) : ℕ) : ℤ)⟩ ∧
    (findClosestRoutePoint v.position v.route = v.route.length - 1 →
      getNextRouteTarget v.destination v.route (findClosestRoutePoint v.position v.route)
        = ⟨(v.route.getD (v.route.length - 1) ⟨0, 0⟩).lat,
           (v.route.getD (v.route.length - 1) ⟨0, 0⟩).lng,
           ((v.route.length - 1 : ℕ) : ℤ)⟩) := by
  have hne : v.route ≠ [] := by
    intro hnil
    rw [hnil] at hlen
    simp at hlen
  have hle : ¬ v.route.length ≤
      min (findClosestRoutePoint v.position v.route + 1) (v.route.length - 1) := by
    omega
  have hmain : getNextRouteTarget v.destination v.route (findClosestRoutePoint v.position v.route)
      = ⟨(v.route.getD (min (findClosestRoutePoint v.position v.route + 1)
            (v.route.length - 1)) ⟨0, 0⟩).lat,
         (v.route.getD (min (findClosestRoutePoint v.position v.route + 1)
            (v.route.length - 1)) ⟨0, 0⟩).lng,
         ((min (findClosestRoutePoint v.position v.route + 1) (v.route.length - 1) : ℕ) : ℤ)⟩ := by
    simp only [getNextRouteTarget, if_neg hne, if_neg hle]
  refine ⟨hmain, fun hlast => ?_⟩
  rw [hmain]
  have hmm : min (findClosestRoutePoint v.position v.route + 1) (v.route.length - 1)
      = v.route.length - 1 := by
    omega
  rw [hmm]

/-- Witness for C3 amended at the concrete routed vehicle. -/
theorem claim3_amended_target_witness :
    2 < vRoute.route.length ∧
    (getNextRouteTarget vRoute.destination vRoute.route
        (findClosestRoutePoint vRoute.position vRoute.route)
      = ⟨(vRoute.route.getD (min (findClosestRoutePoint vRoute.position vRoute.route + 1)
            (vRoute.route.length - 1)) ⟨0, 0⟩).lat,
         (vRoute.route.getD (min (findClosestRoutePoint vRoute.position vRoute.route + 1)
            (vRoute.route.length - 1)) ⟨0, 0⟩).lng,
         ((min (findClosestRoutePoint vRoute.position vRoute.route + 1)
            (vRoute.route.length - 1) : ℕ) : ℤ)⟩ ∧
     (findClosestRoutePoint vRoute.position vRoute.route = vRoute.route.length - 1 →
       getNextRouteTarget vRoute.destination vRoute.route
           (findClosestRoutePoint vRoute.position vRoute.route)
         = ⟨(vRoute.route.getD (vRoute.route.length - 1) ⟨0, 0⟩).lat,
            (vRoute.route.getD (vRoute.route.length - 1) ⟨0, 0⟩).lng,
            ((vRoute.route.length - 1 : ℕ) : ℤ)⟩)) :=
  ⟨by decide, claim3_amended_target vRoute (by decide)⟩

/-- C4: after any single update, whatever random branches fire and
whatever the input speed, the stored speed lies in [0, 100]; since the
update only reads the prior stored speed, the bound holds after any
number of ticks. -/
theorem claim4_speed_bounds (g : ℚ → ℚ → ℚ) (a : Pos → ℚ → ℚ → Pos)
    (c : Vehicle → VStatus) (v : Vehicle) (r : Rand) (n : ℚ) :
    0 ≤ (simulateGPSUpdate g a c v r n).1.currentSpeed ∧
    (simulateGPSUpdate g a c v r n).1.currentSpeed ≤ 100 := by
  have h98 := speedAfterRandom_le_98 v.currentSpeed r
  have h5 := le_speedAfterRandom v.currentSpeed r
  have hspd : (simulateGPSUpdate g a c v r n).1.currentSpeed =
      (if distScaledSq v.destination (routeMotion g a v (distanceKmOf v)).2 < 100 * 100 then 0
       else if distScaledSq v.destination (routeMotion g a v (distanceKmOf v)).2 < 500 * 500
         then min (limitCheck v.id v.driverName (speedAfterRandom v.currentSpeed r)).1 20
         else (limitCheck v.id v.driverName (speedAfterRandom v.currentSpeed r)).1) := rfl
  rw [hspd, limitCheck_eq_of_le _ _ (h98.trans (by norm_num))]
  split_ifs
  · norm_num
  · constructor
    · exact le_min (by linarith) (by norm_num)
    · exact (min_le_right _ _).trans (by norm_num)
  · exact ⟨by linarith, by linarith⟩

/-- C6: each update appends the pre-update timestamp/status/speed/
position snapshot to the history, then keeps only the most recent 450
entries by dropping from the front (oldest first); in particular the
history length never exceeds 450. -/
theorem claim6_history (g : ℚ → ℚ → ℚ) (a : Pos → ℚ → ℚ → Pos)
    (c : Vehicle → VStatus) (v : Vehicle) (r : Rand) (n : ℚ) :
    (simulateGPSUpdate g a c v r n).1.statusHistory =
      (v.statusHistory ++ [HistoryEntry.mk n v.status v.currentSpeed v.position]).drop
        (v.statusHistory.length + 1 - 450) ∧
    (simulateGPSUpdate g a c v r n).1.statusHistory.length ≤ 450 := by
  have h1 : (simulateGPSUpdate g a c v r n).1.statusHistory
      = jsSliceLast 450 (v.statusHistory ++ [HistoryEntry.mk n v.status v.currentSpeed v.position]) := rfl
  have h2 : (v.statusHistory ++ [HistoryEntry.mk n v.status v.currentSpeed v.position]).length
      = v.statusHistory.length + 1 := by
    rw [List.length_append, List.length_singleton]
  constructor
  · rw [h1]
    unfold jsSliceLast
    rw [h2]
  · rw [h1]
    unfold jsSliceLast
    rw [List.length_drop, h2]
    omega

/-- C5: if the squared flat-earth distance from the newly computed
position to the destination is under 100 metres squared, the update
stores exactly the destination coordinates and speed 0; if it is under
500 metres squared, the stored speed is at most 20 km/h. -/
theorem claim5_arrival (g : ℚ → ℚ → ℚ) (a : Pos → ℚ → ℚ → Pos)
    (c : Vehicle → VStatus) (v : Vehicle) (r : Rand) (n : ℚ) :
    (distScaledSq v.destination (routeMotion g a v (distanceKmOf v)).2 < 100 * 100 →
      (simulateGPSUpdate g a c v r n).1.position = v.destination ∧
      (simulateGPSUpdate g a c v r n).1.currentSpeed = 0) ∧
    (distScaledSq v.destination (routeMotion g a v (distanceKmOf v)).2 < 500 * 500 →
      (simulateGPSUpdate g a c v r n).1.currentSpeed ≤ 20) := by
  have hpos : (simulateGPSUpdate g a c v r n).1.position =
      (if distScaledSq v.destination (routeMotion g a v (distanceKmOf v)).2 < 100 * 100
        then v.destination else (routeMotion g a v (distanceKmOf v)).2) := rfl
  have hspd : (simulateGPSUpdate g a c v r n).1.currentSpeed =
      (if distScaledSq v.destination (routeMotion g a v (distanceKmOf v)).2 < 100 * 100 then 0
       else if distScaledSq v.destination (routeMotion g a v (distanceKmOf v)).2 < 500 * 500
         then min (limitCheck v.id v.driverName (speedAfterRandom v.currentSpeed r)).1 20
         else (limitCheck v.id v.driverName (speedAfterRandom v.currentSpeed r)).1) := rfl
  refine ⟨fun h => ⟨?_, ?_⟩, fun h => ?_⟩
  · rw [hpos, if_pos h]
  · rw [hspd, if_pos h]
  · rw [hspd]
    split_ifs with h1
    · norm_num
    · exact min_le_right _ _

/-- Witness for C5 at a vehicle standing on its destination, with the
position function that does not move. -/
theorem claim5_arrival_witness :
    (simulateGPSUpdate atan2Zero calcPosFreeze statusConst vAtDest randCalm 0).1.position
        = vAtDest.destination ∧
    (simulateGPSUpdate atan2Zero calcPosFreeze statusConst vAtDest randCalm 0).1.currentSpeed
        = 0 :=
  (claim5_arrival atan2Zero calcPosFreeze statusConst vAtDest randCalm 0).1
    (by norm_num [distScaledSq, routeMotion, distanceKmOf, vAtDest, atan2Zero, calcPosFreeze])

/-- C8: the heading stored after a tick is the atan2-derived bearing
normalized by ((h mod 360) + 360) mod 360 and lies in [0, 360), for every
bearing function and every random branch. -/
theorem claim8_heading_range (g : ℚ → ℚ → ℚ) (a : Pos → ℚ → ℚ → Pos)
    (c : Vehicle → VStatus) (v : Vehicle) (r : Rand) (n : ℚ) :
    0 ≤ (simulateGPSUpdate g a c v r n).1.heading ∧
    (simulateGPSUpdate g a c v r n).1.heading < 360 :=
  normalizeDeg_bounds _

/-- C9: a tick leaves the route field of a vehicle with a non-empty
route exactly unchanged: the update writes back the very route it
read. -/
theorem claim9_route_preserved (g : ℚ → ℚ → ℚ) (a : Pos → ℚ → ℚ → Pos)
    (c : Vehicle → VStatus) (v : Vehicle) (r : Rand) (n : ℚ)
    (_h : v.route ≠ []) :
    (simulateGPSUpdate g a c v r n).1.route = v.route := rfl

/-- Witness for C9 at the concrete routed vehicle. -/
theorem claim9_route_preserved_witness :
    vRoute.route ≠ [] ∧
    (simulateGPSUpdate atan2Zero calcPosFreeze statusConst vRoute randCalm 0).1.route
      = vRoute.route :=
  ⟨by decide, claim9_route_preserved atan2Zero calcPosFreeze statusConst vRoute randCalm 0 (by decide)⟩

/-- C10: the stored speed after any update is at most 98 km/h: the
[5, 98] clamp runs after every random adjustment, the limit check leaves
a speed of at most 98 unchanged, and the arrival logic only lowers the
speed further, so the 100 km/h hard cap never binds. -/
theorem claim10_speed_le_98 (g : ℚ → ℚ → ℚ) (a : Pos → ℚ → ℚ → Pos)
    (c : Vehicle → VStatus) (v : Vehicle) (r : Rand) (n : ℚ) :
    (simulateGPSUpdate g a c v r n).1.currentSpeed ≤ 98 := by
  have h98 := speedAfterRandom_le_98 v.currentSpeed r
  have hspd : (simulateGPSUpdate g a c v r n).1.currentSpeed =
      (if distScaledSq v.destination (routeMotion g a v (distanceKmOf v)).2 < 100 * 100 then 0
       else if distScaledSq v.destination (routeMotion g a v (distanceKmOf v)).2 < 500 * 500
         then min (limitCheck v.id v.driverName (speedAfterRandom v.currentSpeed r)).1 20
         else (limitCheck v.id v.driverName (speedAfterRandom v.currentSpeed r)).1) := rfl
  rw [hspd, limitCheck_eq_of_le _ _ (h98.trans (by norm_num))]
  split_ifs
  · norm_num
  · exact (min_le_left _ _).trans h98
  · exact h98

/-- Binding after a successful Except computation runs the
continuation. -/
theorem exceptBind_ok {α β : Type} (x : α) (f : α → Except SimError β) :
    (Except.ok x >>= f) = f x := rfl

/-- Binding after a failed Except computation propagates the error. -/
theorem exceptBind_error {α β : Type} (e : SimError) (f : α → Except SimError β) :
    ((Except.error e : Except SimError α) >>= f) = Except.error e := rfl

/-- pure for Except is ok. -/
theorem exceptPure_eq {α : Type} (x : α) :
    (pure x : Except SimError α) = Except.ok x := rfl

/-- C7, counterexample: on a concrete vehicle with no destination the
update does not fail with the MissingDestination error kind the claim
names: it fails with the generic JavaScript TypeError raised when the
absent destination is first dereferenced. -/
theorem claim7_counterexample :
    simulateGPSUpdateE atan2Zero calcPosFreeze statusConstND vNoDest randCalm 0
        = Except.error SimError.typeError ∧
    (Except.error SimError.typeError :
        Except SimError (VehicleND × List SpeedViolation))
      ≠ Except.error SimError.missingDestination := by
  refine ⟨rfl, by simp⟩

/-- C7, amended: the update performs no destination check and owns no
MissingDestination error; for every vehicle whose destination is absent
it fails with the generic runtime TypeError at the first dereference of
the destination, in every route branch. -/
theorem claim7_amended_type_error (g : ℚ → ℚ → ℚ) (a : Pos → ℚ → ℚ → Pos)
    (c : VehicleND → VStatus) (v : VehicleND) (r : Rand) (n : ℚ)
    (h : v.destination = none) :
    simulateGPSUpdateE g a c v r n = Except.error SimError.typeError := by
  have hd : derefDest v.destination = Except.error SimError.typeError := by
    rw [h]
    rfl
  by_cases h2 : 2 < v.route.length
  · have hne : v.route ≠ [] := by
      intro hnil
      rw [hnil] at h2
      simp at h2
    have hle : ¬ v.route.length ≤
        min (findClosestRoutePoint v.position v.route + 1) (v.route.length - 1) := by
      omega
    have hidx : ((min (findClosestRoutePoint v.position v.route + 1)
        (v.route.length - 1) : ℕ) : ℤ) < (v.route.length : ℤ) := by
      have := min_le_right (findClosestRoutePoint v.position v.route + 1) (v.route.length - 1)
      omega
    simp only [simulateGPSUpdateE, routeMotionE, getNextRouteTargetE, if_pos h2,
      if_neg hne, if_neg hle, exceptPure_eq, exceptBind_ok, if_pos hidx, hd,
      exceptBind_error]
  · simp only [simulateGPSUpdateE, routeMotionE, if_neg h2, hd, exceptBind_error]

/-- Witness for C7 amended at the concrete destination-free vehicle. -/
theorem claim7_amended_type_error_witness :
    vNoDest.destination = none ∧
    simulateGPSUpdateE atan2Zero calcPosFreeze statusConstND vNoDest randCalm 0
        = Except.error SimError.typeError :=
  ⟨rfl, claim7_amended_type_error atan2Zero calcPosFreeze statusConstND vNoDest randCalm 0 rfl⟩

end PolsTracker
